import Mathlib

/-!
Verification of `mcp_bridge/mcp_clients/session.py` (`McpClientSession`):
a client-side session layer for the MCP JSON-RPC protocol.  The outbound
facade operations, the `initialize` handshake, the inbound-request
dispatcher (`_received_request` / `sample`) and the background consumer
loop (`_consume_messages`) are embedded shallowly below; components the
session delegates to but that are not part of this module (the `mcp`
library's `BaseSession` correlator, `wrap_message`, the session-state
machine of the design document) are modelled from the specification and
marked as such in their doc comments.
-/

namespace MCPBridge

/-- Modelled from the spec: `mcp.types.LATEST_PROTOCOL_VERSION`, the protocol
version constant of the external `mcp` library (not under the sources of the
repository).  Its concrete value is irrelevant to the claims. -/
def LATEST_PROTOCOL_VERSION : String := "2024-11-05"

/-- Modelled from the spec: `mcp.shared.version.SUPPORTED_PROTOCOL_VERSIONS`,
the statically enumerated supported-version set of the external `mcp` library
(not under the sources of the repository).  Only membership in the set is used
by the claims, never its concrete contents. -/
def SUPPORTED_PROTOCOL_VERSIONS : List String := ["2024-10-07", LATEST_PROTOCOL_VERSION]

/-- Modelled from the spec: `mcp_bridge.__version__` (the package version
string imported as `version` in `session.py`, not under the sources of the
repository).  Its concrete value is irrelevant to the claims. -/
def version : String := "0.0.0"

/-- `types.SamplingCapability()` / `types.RootsCapability(listChanged=...)` as
assembled into `types.ClientCapabilities` by `initialize` (`session.py:111-117`).
`sampling = true` records that the sampling capability object is present. -/
structure ClientCapabilities where
  sampling : Bool
  experimental : Option Unit
  rootsListChanged : Bool
deriving DecidableEq

/-- `types.Implementation` — the `clientInfo` identity metadata. -/
structure Implementation where
  name : String
  version : String
deriving DecidableEq

/-- `types.InitializeRequestParams` (`session.py:109-119`). -/
structure InitializeRequestParams where
  protocolVersion : String
  capabilities : ClientCapabilities
  clientInfo : Implementation
deriving DecidableEq

/-- `types.InitializeResult` — the peer's handshake reply.  Only the
`protocolVersion` field is inspected by the code; the rest of the reply is
kept opaque. -/
structure InitializeResult where
  protocolVersion : String
  rest : String
deriving DecidableEq

/-- `types.CompletionArgument` — built by `complete` from the unpacked
`argument` dict (`session.py:275`). -/
structure CompletionArgument where
  name : String
  value : String
deriving DecidableEq

/-- `types.ResourceReference | types.PromptReference` — the `ref` union
accepted by `complete` (`session.py:266`). -/
inductive CompletionRef where
  | resource (uri : String)
  | prompt (name : String)
deriving DecidableEq

/-- The typed parameter payloads carried by the outbound requests the facade
builds (`session.py:139-291`): each constructor collects exactly the fields
the corresponding `types.*RequestParams` is constructed with. -/
inductive RequestParams where
  | noneP
  | setLevel (level : String)
  | readResource (uri : String)
  | subscribe (uri : String)
  | unsubscribe (uri : String)
  | callTool (name : String) (arguments : Option (List (String × String)))
  | getPrompt (name : String) (arguments : Option (List (String × String)))
  | completeP (ref : CompletionRef) (argument : CompletionArgument)
  | initializeP (p : InitializeRequestParams)
deriving DecidableEq

/-- A `types.ClientRequest` envelope as built by the facade: the wire method
string together with its typed parameters. -/
structure ClientRequest where
  method : String
  params : RequestParams
deriving DecidableEq

/-- `types.ProgressNotificationParams` (`session.py:158-162`). -/
structure ProgressNotificationParams where
  progressToken : String ⊕ Int
  progress : Float
  total : Option Float

/-- Parameter payloads of outbound notifications. -/
inductive NotificationParams where
  | noneP
  | progress (p : ProgressNotificationParams)

/-- A `types.ClientNotification` envelope: wire method plus parameters. -/
structure ClientNotification where
  method : String
  params : NotificationParams

/-- `send_ping` (`session.py:139-148`): builds the `ping` request. -/
def send_ping : ClientRequest :=
  { method := "ping", params := .noneP }

/-- `set_logging_level` (`session.py:167-177`). -/
def set_logging_level (level : String) : ClientRequest :=
  { method := "logging/setLevel", params := .setLevel level }

/-- `list_resources` (`session.py:179-188`). -/
def list_resources : ClientRequest :=
  { method := "resources/list", params := .noneP }

/-- `read_resource` (`session.py:190-200`). -/
def read_resource (uri : String) : ClientRequest :=
  { method := "resources/read", params := .readResource uri }

/-- `subscribe_resource` (`session.py:202-212`). -/
def subscribe_resource (uri : String) : ClientRequest :=
  { method := "resources/subscribe", params := .subscribe uri }

/-- `unsubscribe_resource` (`session.py:214-224`). -/
def unsubscribe_resource (uri : String) : ClientRequest :=
  { method := "resources/unsubscribe", params := .unsubscribe uri }

/-- `call_tool` (`session.py:226-238`). -/
def call_tool (name : String) (arguments : Option (List (String × String))) : ClientRequest :=
  { method := "tools/call", params := .callTool name arguments }

/-- `list_prompts` (`session.py:240-249`). -/
def list_prompts : ClientRequest :=
  { method := "prompts/list", params := .noneP }

/-- `get_prompt` (`session.py:251-263`). -/
def get_prompt (name : String) (arguments : Option (List (String × String))) : ClientRequest :=
  { method := "prompts/get", params := .getPrompt name arguments }

/-- `complete` (`session.py:265-280`). -/
def complete (ref : CompletionRef) (argument : CompletionArgument) : ClientRequest :=
  { method := "completion/complete", params := .completeP ref argument }

/-- `list_tools` (`session.py:282-291`). -/
def list_tools : ClientRequest :=
  { method := "tools/list", params := .noneP }

/-- `send_progress_notification` (`session.py:150-165`). -/
def send_progress_notification (progress_token : String ⊕ Int) (progress : Float)
    (total : Option Float) : ClientNotification :=
  { method := "notifications/progress"
    params := .progress { progressToken := progress_token, progress := progress, total := total } }

/-- `send_roots_list_changed` (`session.py:293-301`). -/
def send_roots_list_changed : ClientNotification :=
  { method := "notifications/roots/list_changed", params := .noneP }

/-- The `types.InitializedNotification` sent at the end of a successful
handshake (`session.py:131-135`). -/
def initialized_notification : ClientNotification :=
  { method := "notifications/initialized", params := .noneP }

/-- The `types.InitializeRequestParams` value `initialize` constructs
(`session.py:109-119`): a fixed constant — `LATEST_PROTOCOL_VERSION`, sampling
capability present, `roots.listChanged = True`, `clientInfo = ("MCP-Bridge",
version)`; nothing in it depends on the session or the call. -/
def initializeRequestParams : InitializeRequestParams :=
  { protocolVersion := LATEST_PROTOCOL_VERSION
    capabilities :=
      { sampling := true
        experimental := none
        rootsListChanged := true }
    clientInfo := { name := "MCP-Bridge", version := version } }

/-- One outbound wire message produced during the handshake: either a request
envelope or a notification envelope, in send order. -/
inductive SentMessage where
  | request (method : String) (params : RequestParams)
  | notification (method : String)

/-- Modelled from the spec: the `SessionState` enum of the design document
(§3).  `session.py` keeps no such field; the spec owns the state machine. -/
inductive SessionState where
  | created
  | initializing
  | ready
  | closed
  | failed
deriving DecidableEq

/-- Modelled from the spec: "no further RPC is permitted" once the session is
`Failed` (§3 ProtocolVersion invariant, §4.1); RPC is permitted only in
`Ready`. -/
def rpcPermitted : SessionState → Bool
  | .ready => true
  | _ => false

/-- Outcome of one `initialize()` call: the wire messages sent in order, the
value returned to the caller (or the raised error's message), and the
session state after the call (state transitions modelled from the spec,
§4.1, since the code keeps no state field). -/
structure InitializeOutcome where
  sent : List SentMessage
  result : Except String InitializeResult
  sessionState : SessionState

/-- `initialize` (`session.py:104-137`) as a function of the peer's handshake
reply: sends the `initialize` request built from `initializeRequestParams`;
if the reply's `protocolVersion` is not in `SUPPORTED_PROTOCOL_VERSIONS`,
raises `RuntimeError` (`session.py:125-129`) before any notification is sent
(session state `failed`, modelled from the spec §4.1); otherwise sends the
`notifications/initialized` notification and returns the reply (state
`ready`). -/
def initializeSession (reply : InitializeResult) : InitializeOutcome :=
  if reply.protocolVersion ∈ SUPPORTED_PROTOCOL_VERSIONS then
    { sent := [.request "initialize" (.initializeP initializeRequestParams),
               .notification "notifications/initialized"]
      result := .ok reply
      sessionState := .ready }
  else
    { sent := [.request "initialize" (.initializeP initializeRequestParams)]
      result := .error
        ("Unsupported protocol version from the server: " ++ reply.protocolVersion)
      sessionState := .failed }

/-- `types.CreateMessageRequestParams` — the parameters of a peer-initiated
sampling request (opaque payload; the session never inspects it). -/
structure CreateMessageRequestParams where
  payload : String
deriving DecidableEq

/-- `types.CreateMessageResult` — the result of the sampling handler (opaque
payload). -/
structure CreateMessageResult where
  content : String
deriving DecidableEq

/-- `types.ClientResult` — the result type responses to the peer carry.
`ClientResult(**response.model_dump())` (`session.py:309`) repackages a
`CreateMessageResult` field-for-field into this wrapper. -/
structure ClientResult where
  content : String
deriving DecidableEq

/-- `ClientResult(**response.model_dump())` (`session.py:309`). -/
def clientResultOfCreateMessage (r : CreateMessageResult) : ClientResult :=
  { content := r.content }

/-- A peer-initiated `types.ServerRequest`: either the sampling
(create-message) request the dispatcher handles, or any other server request
(`ping`, `roots/list`, ...) identified by its wire method. -/
inductive ServerRequest where
  | createMessage (params : CreateMessageRequestParams)
  | other (method : String)
deriving DecidableEq

/-- An outbound response envelope written back to the peer for one of its
requests, correlated by the original request's id. -/
inductive OutResponse where
  | success (id : Nat) (result : ClientResult)
  | error (id : Nat) (message : String)
deriving DecidableEq

/-- The injected sampling handler: `handle_sampling_message` from
`mcp_bridge.sampling.sampler` (out of scope per the spec §1: "treated as an
injected async function").  `Except.error e` models the handler raising an
exception with message `e`. -/
def SamplingHandler : Type :=
  CreateMessageRequestParams → Except String CreateMessageResult

/-- `sample` (`session.py:312-316`): logs, awaits `handle_sampling_message`
on the parameters, and returns its result; an exception raised by the
handler propagates. -/
def sample (handler : SamplingHandler) (params : CreateMessageRequestParams) :
    Except String CreateMessageResult :=
  handler params

/-- `_received_request` (`session.py:303-310`): if the request is a
`CreateMessageRequest`, awaits `sample`, repackages the result as a
`ClientResult` and responds with it (`responder.respond` writes a success
envelope correlated to the request id); any other request falls through the
`isinstance` check and the method returns having written nothing.  The
returned list is the responses written; `Except.error` models an exception
propagating out of `_received_request` (a raising handler). -/
def receivedRequest (handler : SamplingHandler) (id : Nat) (req : ServerRequest) :
    Except String (List OutResponse) :=
  match req with
  | .createMessage params =>
      match sample handler params with
      | .ok response => .ok [.success id (clientResultOfCreateMessage response)]
      | .error e => .error e
  | .other _ => .ok []

/-- One item pulled from the inbound stream, after the classification the
loop body performs on the wrapped message (`session.py:77-93`).
`wrap_message` and the duck-typed `hasattr` probes live in
`mcp_bridge.utils.message_adapter` and the `mcp` library, neither under the
sources of the repository; the classification is modelled from the spec's
routing rule (§4.2): an exception surfaced as a stream item, a peer request
(a `RequestResponder`, carrying `.request`), a server notification, a
response to a pending outbound request, a malformed item whose
wrapping/decoding raises, or an item whose processing raises
`ClosedResourceError`. -/
inductive StreamItem where
  | exnItem (e : String)
  | request (id : Nat) (req : ServerRequest)
  | notification (method : String)
  | response (id : Nat) (result : String)
  | malformed (e : String)
  | closedDuringProcessing
deriving DecidableEq

/-- One event of iterating the inbound stream: a yielded item, the iteration
mechanism raising `anyio.ClosedResourceError` (stream closed), or the
iteration mechanism raising some other exception.  The end of the list is the
iterator finishing normally. -/
inductive StreamEvent where
  | item (i : StreamItem)
  | closeError
  | iterError (e : String)
deriving DecidableEq

/-- State the consumer loop acts on: the pending-request table of the
correlator (ids of outstanding outbound requests and the results already
delivered — the correlator itself is `mcp`'s `BaseSession`, modelled from the
spec §4.3), the response envelopes written back to the peer, the session
state (modelled from the spec §3; `_consume_messages` never writes it), and
the log. -/
structure LoopState where
  pending : List Nat
  resolved : List (Nat × String)
  responsesOut : List OutResponse
  sessionState : SessionState
  log : List String
deriving DecidableEq

/-- Append one log line. -/
def pushLog (st : LoopState) (line : String) : LoopState :=
  { st with log := st.log ++ [line] }

/-- Modelled from the spec (§4.3 `resolve`): the correlator resolves a
response by id — if the id is pending, the entry is removed and the result
delivered; otherwise the response is discarded (logged, non-fatal). -/
def resolveResponse (st : LoopState) (id : Nat) (result : String) : LoopState :=
  if id ∈ st.pending then
    { st with pending := st.pending.filter (· ≠ id)
              resolved := st.resolved ++ [(id, result)] }
  else
    pushLog st "Received response for unknown request id"

/-- Result of running the body of one loop iteration up to but not including
the per-message `except` clauses (`session.py:75-93`): the iteration
completed (`ok`), it raised `anyio.ClosedResourceError` (`closed`, caught at
`session.py:94-96` with `break`), or it raised some other exception
(`raised`, caught at `session.py:97-98`). -/
inductive ItemStep where
  | ok (st : LoopState)
  | closed (st : LoopState)
  | raised (e : String) (st : LoopState)
deriving DecidableEq

/-- The body of one iteration of `_consume_messages` (`session.py:75-93`):
wrap the message (a `malformed` item models `wrap_message` raising); an
`Exception` item is logged; a `RequestResponder` is dispatched to
`_received_request` inside its own `try` (`session.py:83-86`) whose `except`
logs and swallows a raising handler; a notification is logged; a response is
routed to the correlator (routing modelled from the spec §4.2, the resolution
itself being `BaseSession`'s). -/
def processBody (handler : SamplingHandler) (st : LoopState) : StreamItem → ItemStep
  | .malformed e => .raised e st
  | .exnItem e => .ok (pushLog st ("Received exception in message stream: " ++ e))
  | .request id req =>
      match receivedRequest handler id req with
      | .ok rs => .ok { st with responsesOut := st.responsesOut ++ rs }
      | .error e => .ok (pushLog st ("Error handling request: " ++ e))
  | .notification _ => .ok (pushLog st "Received notification from server")
  | .response id result => .ok (resolveResponse st id result)
  | .closedDuringProcessing => .closed (pushLog st "Message stream closed")

/-- Whether the loop continues to the next item or breaks out. -/
inductive StepOut where
  | cont (st : LoopState)
  | brk (st : LoopState)
deriving DecidableEq

/-- One full iteration including the per-message `except` clauses
(`session.py:94-98`): `ClosedResourceError` breaks out of the loop; any other
exception is logged and the loop continues with the next item. -/
def processItem (handler : SamplingHandler) (st : LoopState) (i : StreamItem) : StepOut :=
  match processBody handler st i with
  | .ok st' => .cont st'
  | .closed st' => .brk st'
  | .raised e st' => .cont (pushLog st' ("Error processing message: " ++ e))

/-- How `_consume_messages` returned: after the guard found no inbound stream
(`session.py:70-71`), after the stream closed or ended (the `async for`
finishing, the inner `break`, or the outer `ClosedResourceError` handler at
`session.py:99-100`), or after the outer generic `except` logged a failure of
the iteration mechanism itself (`session.py:101-102`).  In every case the
coroutine returns without raising. -/
inductive LoopExit where
  | guardReturn
  | cleanClose
  | loggedFailure (e : String)
deriving DecidableEq

/-- The `async for` of `_consume_messages` with its surrounding `try`
(`session.py:73-102`), over the sequence of stream events: items are
processed one at a time with per-message isolation; a
`ClosedResourceError` from the iteration mechanism is logged and the loop
exits cleanly; any other iteration error is logged as
"Message consumer task failed" and the coroutine returns — no exception is
re-raised and no state is written. -/
def consumeLoop (handler : SamplingHandler) :
    List StreamEvent → LoopState → LoopExit × LoopState
  | [], st => (.cleanClose, st)
  | .closeError :: _, st => (.cleanClose, pushLog st "Message stream closed")
  | .iterError e :: _, st =>
      (.loggedFailure e, pushLog st ("Message consumer task failed: " ++ e))
  | .item i :: rest, st =>
      match processItem handler st i with
      | .cont st' => consumeLoop handler rest st'
      | .brk st' => (.cleanClose, st')

/-- The fields of `McpClientSession` set by `__init__` (`session.py:46-48`)
that `_consume_messages` reads: the read stream, and `incoming_messages`
(held as an `Option` because the guard in `_consume_messages` probes it with
`hasattr`/`is None`). -/
structure McpClientSession where
  read_stream : List StreamEvent
  incoming_messages : Option (List StreamEvent)

/-- `__init__` (`session.py:33-48`): stores the read stream and sets
`incoming_messages` (and its underscore twin) to it. -/
def initSession (read_stream : List StreamEvent) : McpClientSession :=
  { read_stream := read_stream
    incoming_messages := some read_stream }

/-- `_consume_messages` (`session.py:62-102`): the guard at
`session.py:66-71` returns immediately when `incoming_messages` is absent or
`None`; otherwise the consumer loop runs over the inbound stream. -/
def consumeMessages (handler : SamplingHandler) (s : McpClientSession)
    (st : LoopState) : LoopExit × LoopState :=
  match s.incoming_messages with
  | none => (.guardReturn, pushLog st "incoming_messages not found or is None")
  | some events => consumeLoop handler events st

/-- The wire method string of a sent message. -/
def SentMessage.methodOf : SentMessage → String
  | .request m _ => m
  | .notification m => m

/-- The state a loop step carries, whether the loop continues or breaks. -/
def StepOut.state : StepOut → LoopState
  | .cont st => st
  | .brk st => st

theorem mem_resolved_processItem (handler : SamplingHandler) (st : LoopState)
    (i : StreamItem) (x : Nat × String) (hx : x ∈ st.resolved) :
    x ∈ (processItem handler st i).state.resolved := by
  cases i with
  | exnItem e => simpa [processItem, processBody, pushLog, StepOut.state] using hx
  | request id req =>
      cases h : receivedRequest handler id req with
      | ok rs => simpa [processItem, processBody, h, StepOut.state] using hx
      | error e => simpa [processItem, processBody, h, pushLog, StepOut.state] using hx
  | notification m => simpa [processItem, processBody, pushLog, StepOut.state] using hx
  | response id r =>
      by_cases hid : id ∈ st.pending
      · simp [processItem, processBody, resolveResponse, hid, StepOut.state]
        exact Or.inl hx
      · simpa [processItem, processBody, resolveResponse, hid, pushLog, StepOut.state] using hx
  | malformed e => simpa [processItem, processBody, pushLog, StepOut.state] using hx
  | closedDuringProcessing =>
      simpa [processItem, processBody, pushLog, StepOut.state] using hx

theorem mem_resolved_consumeLoop (handler : SamplingHandler) (evs : List StreamEvent) :
    ∀ (st : LoopState) (x : Nat × String), x ∈ st.resolved →
      x ∈ (consumeLoop handler evs st).2.resolved := by
  induction evs with
  | nil => intro st x hx; simpa [consumeLoop] using hx
  | cons ev rest ih =>
      intro st x hx
      cases ev with
      | closeError => simpa [consumeLoop, pushLog] using hx
      | iterError e => simpa [consumeLoop, pushLog] using hx
      | item i =>
          have h := mem_resolved_processItem handler st i x hx
          cases hpi : processItem handler st i with
          | cont st' =>
              rw [hpi] at h
              simp only [consumeLoop, hpi]
              exact ih st' x h
          | brk st' =>
              rw [hpi] at h
              simpa [consumeLoop, hpi, StepOut.state] using h

theorem consumeLoop_not_guardReturn (handler : SamplingHandler)
    (evs : List StreamEvent) : ∀ st : LoopState,
    (consumeLoop handler evs st).1 ≠ LoopExit.guardReturn := by
  induction evs with
  | nil => intro st; simp [consumeLoop]
  | cons ev rest ih =>
      intro st
      cases ev with
      | closeError => simp [consumeLoop]
      | iterError e => simp [consumeLoop]
      | item i =>
          cases hpi : processItem handler st i with
          | cont st' => simpa [consumeLoop, hpi] using ih st'
          | brk st' => simp [consumeLoop, hpi]

/-- C6: every outbound facade operation sends exactly its catalogued wire
method string, and `initialize` (on a supported reply) sends `initialize`
followed by `notifications/initialized`. -/
theorem facade_wire_methods :
    send_ping.method = "ping"
    ∧ (∀ level, (set_logging_level level).method = "logging/setLevel")
    ∧ list_resources.method = "resources/list"
    ∧ (∀ uri, (read_resource uri).method = "resources/read")
    ∧ (∀ uri, (subscribe_resource uri).method = "resources/subscribe")
    ∧ (∀ uri, (unsubscribe_resource uri).method = "resources/unsubscribe")
    ∧ (∀ name arguments, (call_tool name arguments).method = "tools/call")
    ∧ list_tools.method = "tools/list"
    ∧ list_prompts.method = "prompts/list"
    ∧ (∀ name arguments, (get_prompt name arguments).method = "prompts/get")
    ∧ (∀ ref argument, (complete ref argument).method = "completion/complete")
    ∧ (∀ t p tot, (send_progress_notification t p tot).method = "notifications/progress")
    ∧ send_roots_list_changed.method = "notifications/roots/list_changed"
    ∧ (∀ reply : InitializeResult,
        reply.protocolVersion ∈ SUPPORTED_PROTOCOL_VERSIONS →
        (initializeSession reply).sent.map SentMessage.methodOf
          = ["initialize", "notifications/initialized"]) := by
  refine ⟨rfl, fun _ => rfl, rfl, fun _ => rfl, fun _ => rfl, fun _ => rfl,
    fun _ _ => rfl, rfl, rfl, fun _ _ => rfl, fun _ _ => rfl, fun _ _ _ => rfl, rfl,
    fun reply h => ?_⟩
  simp [initializeSession, h, SentMessage.methodOf]

/-- Witness for C6: the handshake conjunct at a concrete supported reply. -/
theorem facade_wire_methods_witness :
    (initializeSession { protocolVersion := "2024-11-05", rest := "" }).sent.map
        SentMessage.methodOf
      = ["initialize", "notifications/initialized"] :=
  facade_wire_methods.2.2.2.2.2.2.2.2.2.2.2.2.2
    { protocolVersion := "2024-11-05", rest := "" } (by decide)

/-- C7: every `initialize()` call sends an `initialize` request whose payload
declares the sampling capability, `roots.listChanged = true` and a
`clientInfo` with a name and version; when the reply's protocol version is
supported it then sends the `notifications/initialized` notification and
returns the peer's result. -/
theorem initialize_handshake_payload_and_success :
    (∀ reply : InitializeResult,
      (initializeSession reply).sent.head?
        = some (.request "initialize" (.initializeP initializeRequestParams)))
    ∧ initializeRequestParams.capabilities.sampling = true
    ∧ initializeRequestParams.capabilities.rootsListChanged = true
    ∧ initializeRequestParams.clientInfo
        = { name := "MCP-Bridge", version := version }
    ∧ (∀ reply : InitializeResult,
        reply.protocolVersion ∈ SUPPORTED_PROTOCOL_VERSIONS →
        (initializeSession reply).sent
            = [.request "initialize" (.initializeP initializeRequestParams),
               .notification "notifications/initialized"]
          ∧ (initializeSession reply).result = .ok reply) := by
  refine ⟨fun reply => ?_, rfl, rfl, rfl, fun reply h => ?_⟩
  · unfold initializeSession
    split <;> rfl
  · simp [initializeSession, h]

/-- Witness for C7: the conditional conjunct at a concrete supported reply. -/
theorem initialize_handshake_payload_and_success_witness :
    (initializeSession { protocolVersion := "2024-11-05", rest := "w" }).sent
        = [.request "initialize" (.initializeP initializeRequestParams),
           .notification "notifications/initialized"]
      ∧ (initializeSession { protocolVersion := "2024-11-05", rest := "w" }).result
        = .ok { protocolVersion := "2024-11-05", rest := "w" } :=
  initialize_handshake_payload_and_success.2.2.2.2
    { protocolVersion := "2024-11-05", rest := "w" } (by decide)

/-- C10: `initialize()` always declares `LATEST_PROTOCOL_VERSION` as the
client's protocol version: the request payload is the fixed constant
`initializeRequestParams`, independent of the peer's reply or any per-call
input. -/
theorem initialize_declares_latest_protocol_version :
    initializeRequestParams.protocolVersion = LATEST_PROTOCOL_VERSION
    ∧ ∀ reply : InitializeResult,
        (initializeSession reply).sent.head?
          = some (.request "initialize" (.initializeP initializeRequestParams)) := by
  refine ⟨rfl, fun reply => ?_⟩
  unfold initializeSession
  split <;> rfl

/-- C1: a handshake reply carrying an unsupported protocol version makes
`initialize()` raise instead of returning a result and leaves the session
`Failed` with RPC no longer permitted; a supported version raises no such
error. -/
theorem initialize_unsupported_version_fails :
    ∀ reply : InitializeResult,
      (reply.protocolVersion ∉ SUPPORTED_PROTOCOL_VERSIONS →
        (∃ e, (initializeSession reply).result = .error e)
        ∧ (initializeSession reply).sessionState = .failed
        ∧ rpcPermitted (initializeSession reply).sessionState = false)
      ∧ (reply.protocolVersion ∈ SUPPORTED_PROTOCOL_VERSIONS →
        (initializeSession reply).result = .ok reply) := by
  intro reply
  constructor
  · intro h
    refine ⟨⟨"Unsupported protocol version from the server: "
        ++ reply.protocolVersion, ?_⟩, ?_, ?_⟩ <;>
      simp [initializeSession, h, rpcPermitted]
  · intro h
    simp [initializeSession, h]

/-- Witness for C1: a concrete unsupported reply fails and a concrete
supported reply succeeds. -/
theorem initialize_unsupported_version_fails_witness :
    ((∃ e, (initializeSession { protocolVersion := "bogus", rest := "x" }).result
        = .error e)
      ∧ (initializeSession { protocolVersion := "bogus", rest := "x" }).sessionState
        = .failed
      ∧ rpcPermitted
          (initializeSession { protocolVersion := "bogus", rest := "x" }).sessionState
        = false)
    ∧ (initializeSession { protocolVersion := "2024-11-05", rest := "y" }).result
      = .ok { protocolVersion := "2024-11-05", rest := "y" } :=
  ⟨(initialize_unsupported_version_fails
      { protocolVersion := "bogus", rest := "x" }).1 (by decide),
   (initialize_unsupported_version_fails
      { protocolVersion := "2024-11-05", rest := "y" }).2 (by decide)⟩

/-- C4: a peer-initiated sampling request whose registered handler returns
`R` is answered with a success envelope carrying `R` repackaged as a
`ClientResult`, correlated to the original request's id. -/
theorem sampling_request_yields_success_response :
    ∀ (handler : SamplingHandler) (id : Nat) (p : CreateMessageRequestParams)
      (R : CreateMessageResult),
      handler p = .ok R →
      receivedRequest handler id (.createMessage p)
        = .ok [.success id (clientResultOfCreateMessage R)] := by
  intro handler id p R h
  simp [receivedRequest, sample, h]

/-- Witness for C4: a concrete handler, parameters and id. -/
theorem sampling_request_yields_success_response_witness :
    receivedRequest (fun _ => .ok { content := "res" }) 3
        (.createMessage { payload := "par" })
      = .ok [.success 3 (clientResultOfCreateMessage { content := "res" })] :=
  sampling_request_yields_success_response (fun _ => .ok { content := "res" }) 3
    { payload := "par" } { content := "res" } rfl

/-- C3: any stream item whose per-message processing raises is logged and
skipped — the loop continues with the remaining events exactly as if started
after the bad item — and a valid response arriving after a malformed item
still resolves its matching pending request. -/
theorem consumer_loop_isolates_item_errors :
    (∀ (handler : SamplingHandler) (i : StreamItem) (e : String)
        (st st' : LoopState) (rest : List StreamEvent),
        processBody handler st i = .raised e st' →
        consumeLoop handler (.item i :: rest) st
          = consumeLoop handler rest
              (pushLog st' ("Error processing message: " ++ e)))
    ∧ (∀ (handler : SamplingHandler) (e : String) (id : Nat) (result : String)
        (rest : List StreamEvent) (st : LoopState),
        id ∈ st.pending →
        (id, result) ∈
          (consumeLoop handler
            (.item (.malformed e) :: .item (.response id result) :: rest)
            st).2.resolved)
    ∧ (∀ (handler : SamplingHandler) (e : String) (st : LoopState)
        (rest : List StreamEvent),
        consumeLoop handler (.item (.exnItem e) :: rest) st
          = consumeLoop handler rest
              (pushLog st ("Received exception in message stream: " ++ e))) := by
  refine ⟨?_, ?_, fun _ _ _ _ => rfl⟩
  · intro handler i e st st' rest h
    simp [consumeLoop, processItem, h]
  · intro handler e id result rest st hid
    have hid' : id ∈ (pushLog st ("Error processing message: " ++ e)).pending := hid
    simp only [consumeLoop, processItem, processBody]
    rw [resolveResponse, if_pos hid']
    exact mem_resolved_consumeLoop handler rest _ (id, result)
      (List.mem_append.mpr (Or.inr (List.mem_singleton.mpr rfl)))

/-- Witness for C3: a concrete malformed item is skipped, and the response
behind it still resolves pending request 9. -/
theorem consumer_loop_isolates_item_errors_witness :
    (consumeLoop (fun _ => .ok { content := "c" })
        [.item (.malformed "bad")]
        { pending := [9], resolved := [], responsesOut := [],
          sessionState := .ready, log := [] }
      = consumeLoop (fun _ => .ok { content := "c" }) []
          (pushLog
            { pending := [9], resolved := [], responsesOut := [],
              sessionState := .ready, log := [] }
            ("Error processing message: " ++ "bad")))
    ∧ (9, "r") ∈
        (consumeLoop (fun _ => .ok { content := "c" })
          [.item (.malformed "bad"), .item (.response 9 "r")]
          { pending := [9], resolved := [], responsesOut := [],
            sessionState := .ready, log := [] }).2.resolved :=
  ⟨consumer_loop_isolates_item_errors.1 (fun _ => .ok { content := "c" })
      (.malformed "bad") "bad" _ _ [] rfl,
   consumer_loop_isolates_item_errors.2.1 (fun _ => .ok { content := "c" })
      "bad" 9 "r" [] _ (by decide)⟩

/-- C2 (code evaluated at the failing input): a peer-initiated request that
is not a sampling request — here `roots/list`, id 7 — falls through
`_received_request` with no response written at all, through the dispatcher
and through the whole consumer loop: the peer's request is left unanswered,
with no `ResponseError` envelope. -/
theorem unhandled_peer_request_left_unanswered :
    receivedRequest (fun _ => .ok { content := "c" }) 7 (.other "roots/list")
      = .ok []
    ∧ (consumeLoop (fun _ => .ok { content := "c" })
        [.item (.request 7 (.other "roots/list"))]
        { pending := [], resolved := [], responsesOut := [],
          sessionState := .ready, log := [] }).2.responsesOut
      = [] :=
  ⟨rfl, rfl⟩

/-- A sampling handler that always raises (models `handle_sampling_message`
raising an exception). -/
def raisingHandler : SamplingHandler := fun _ => .error "boom"

/-- C5 (code evaluated at the failing input): when the sampling handler
raises while servicing peer request id 5, the exception is caught and logged
inside the consumer loop, no response envelope of any kind is written back
for id 5, and the loop keeps running — the subsequent response for pending
request 9 is still resolved and the loop exits cleanly. -/
theorem handler_error_logged_not_responded :
    consumeLoop raisingHandler
        [.item (.request 5 (.createMessage { payload := "p" })),
         .item (.response 9 "r")]
        { pending := [9], resolved := [], responsesOut := [],
          sessionState := .ready, log := [] }
      = (.cleanClose,
         { pending := [], resolved := [(9, "r")], responsesOut := [],
           sessionState := .ready,
           log := ["Error handling request: boom"] }) := by
  decide

/-- C8 counterexample: an error in the stream iteration mechanism itself
(`iterError "boom"`) does not mark the session `Failed` — the loop merely
logs and returns, leaving the session state it started with (`ready`). -/
theorem iter_error_does_not_mark_failed_cex :
    ¬ ((consumeLoop (fun _ => .ok { content := "c" }) [.iterError "boom"]
        { pending := [], resolved := [], responsesOut := [],
          sessionState := .ready, log := [] }).2.sessionState
      = SessionState.failed) := by
  decide

/-- C8 (amended): the consumer loop exits cleanly (without raising) when the
inbound stream ends or reports closure; on any error in the stream iteration
mechanism itself it also returns without raising, logging a consumer-task
failure distinct from the per-message log, and it changes no session state —
in particular it does not mark the session `Failed`. -/
theorem consumer_loop_exit_behavior :
    ∀ (handler : SamplingHandler) (st : LoopState) (e : String)
      (rest : List StreamEvent),
      consumeLoop handler [] st = (.cleanClose, st)
      ∧ consumeLoop handler (.closeError :: rest) st
          = (.cleanClose, pushLog st "Message stream closed")
      ∧ consumeLoop handler (.iterError e :: rest) st
          = (.loggedFailure e, pushLog st ("Message consumer task failed: " ++ e))
      ∧ (consumeLoop handler (.iterError e :: rest) st).2.sessionState
          = st.sessionState :=
  fun _ _ _ _ => ⟨rfl, rfl, rfl, rfl⟩

/-- C9: `__init__` always sets `incoming_messages` to the read stream, so the
guard branch of `_consume_messages` that returns without consuming anything
is unreachable: the loop always begins iterating the inbound stream. -/
theorem init_sets_incoming_messages :
    ∀ (read_stream : List StreamEvent) (handler : SamplingHandler)
      (st : LoopState),
      (initSession read_stream).incoming_messages = some read_stream
      ∧ consumeMessages handler (initSession read_stream) st
          = consumeLoop handler read_stream st
      ∧ (consumeMessages handler (initSession read_stream) st).1
          ≠ .guardReturn := by
  intro read_stream handler st
  refine ⟨rfl, rfl, ?_⟩
  show (consumeLoop handler read_stream st).1 ≠ LoopExit.guardReturn
  exact consumeLoop_not_guardReturn handler read_stream st

end MCPBridge
